import Mathlib

/-!
Verification development for the remglk-rs boundary layer: the C dispatch
support code (remglk_capi/src/glk/support.c) and the Emglken JS library
(remglk_capi/src/systems/library_emglken.js, with its earlier generations).
The embeddings below translate those source functions into Lean; host-side
collaborators (the Dialog storage provider, GlkOte, the VM registry callbacks)
are opaque parameters, exactly as the source treats them.
-/

namespace RemGlk

/-- Opaque rocks are plain integers on the C side (gidispatch_rock_t). -/
abbrev Rock := Nat

/-- Opaque object pointers; the boundary layer never dereferences them. -/
abbrev Obj := Nat

/-! ### Dispatch registry: gidispatch_get_objrock (support.c)

The object-class constants come from the standard Glk dispatch header
gi_dispa.h: Window 0, Stream 1, Fileref 2, Schannel 3. -/

def gidisp_Class_Window : Nat := 0

def gidisp_Class_Stream : Nat := 1

def gidisp_Class_Fileref : Nat := 2

def gidisp_Class_Schannel : Nat := 3

/-- The per-class rock lookup functions that support.c declares extern
(gidispatch_get_objrock_fileref / _stream / _window) and that the Rust core
provides. support.h declares lookups for exactly these three classes. -/
structure ObjrockLookups where
  fileref : Obj → Rock
  stream : Obj → Rock
  window : Obj → Rock

/-- Outcome of gidispatch_get_objrock: either a rock, or the
`__builtin_unreachable()` default arm, a fatal contract violation. -/
inductive ObjrockResult where
  | ok (rock : Rock)
  | unreachableArm
deriving DecidableEq, Repr

/-- Embedding of gidispatch_get_objrock from support.c: a switch on objclass
with cases for gidisp_Class_Fileref, gidisp_Class_Stream and
gidisp_Class_Window, each calling that class's lookup function; the default
arm is `__builtin_unreachable()`. -/
def gidispatch_get_objrock (lk : ObjrockLookups) (obj : Obj) (objclass : Nat) :
    ObjrockResult :=
  if objclass = gidisp_Class_Fileref then .ok (lk.fileref obj)
  else if objclass = gidisp_Class_Stream then .ok (lk.stream obj)
  else if objclass = gidisp_Class_Window then .ok (lk.window obj)
  else .unreachableArm

/-- A concrete set of lookup functions used for counterexamples. -/
def testLookups : ObjrockLookups :=
  { fileref := fun o => o + 100
    stream := fun o => o + 200
    window := fun o => o + 300 }

/-- C1 counterexample: the claim says all four known classes, SoundChannel
included, route to a per-class lookup without reaching the fatal arm; but
gidispatch_get_objrock has no case for gidisp_Class_Schannel, so a
SoundChannel query falls into the `__builtin_unreachable()` default arm. -/
theorem getObjrock_schannel_hits_fatal_arm :
    gidispatch_get_objrock testLookups 0 gidisp_Class_Schannel =
      ObjrockResult.unreachableArm := by
  rfl

/-- C1 (amended): gidispatch_get_objrock routes the three supported classes
Fileref, Stream and Window to their per-class lookup functions and returns the
produced rock; every other class value, the SoundChannel class included,
reaches the fatal unreachable arm. -/
theorem getObjrock_routes_three_classes (lk : ObjrockLookups) (obj : Obj) :
    gidispatch_get_objrock lk obj gidisp_Class_Fileref = .ok (lk.fileref obj) ∧
    gidispatch_get_objrock lk obj gidisp_Class_Stream = .ok (lk.stream obj) ∧
    gidispatch_get_objrock lk obj gidisp_Class_Window = .ok (lk.window obj) ∧
    ∀ objclass : Nat,
      objclass ≠ gidisp_Class_Fileref →
      objclass ≠ gidisp_Class_Stream →
      objclass ≠ gidisp_Class_Window →
      gidispatch_get_objrock lk obj objclass = .unreachableArm := by
  refine ⟨rfl, rfl, rfl, ?_⟩
  intro objclass h1 h2 h3
  simp [gidispatch_get_objrock, h1, h2, h3]

/-- C1 witness: instantiating the amended routing theorem at concrete
inputs, with the SoundChannel class as the unhandled value. -/
theorem getObjrock_routes_three_classes_spot :
    gidispatch_get_objrock testLookups 7 gidisp_Class_Fileref = .ok 107 ∧
    gidispatch_get_objrock testLookups 7 gidisp_Class_Schannel =
      .unreachableArm :=
  ⟨(getObjrock_routes_three_classes testLookups 7).1,
   (getObjrock_routes_three_classes testLookups 7).2.2.2
     gidisp_Class_Schannel (by decide) (by decide) (by decide)⟩

/-! ### Storyfile special-casing: emglken_fileref_exists / emglken_fileref_read

Embedding of the fileref generation of the Emglken library (the generation
keyed by structured references with a filename field). The Dialog host
provider is an opaque parameter: its records may contain anything, including
a record whose name equals the storyfile name with different bytes. -/

abbrev Byte := Nat

/-- The environment the fileref generation closes over: the well-known
storyfile name and its immutable pre-loaded bytes, plus the Dialog host
provider functions the code may delegate to. -/
structure EmglkenEnv where
  storyfile_name : String
  storyfile_data : List Byte
  host_exists : String → Bool
  host_read : String → Option (List Byte)

/-- Embedding of emglken_fileref_exists: returns true when the reference's
filename equals the storyfile name, otherwise delegates to
Dialog.file_ref_exists. -/
def emglken_fileref_exists (env : EmglkenEnv) (name : String) : Bool :=
  if name = env.storyfile_name then true else env.host_exists name

/-- Embedding of emglken_fileref_read: when the reference's filename equals
the storyfile name it writes storyfile_data into the out buffer and returns
true, modelled as `some storyfile_data`; for any other name this generation
returns false (no data), modelled as `none`. -/
def emglken_fileref_read (env : EmglkenEnv) (name : String) :
    Option (List Byte) :=
  if name = env.storyfile_name then some env.storyfile_data else none

/-- Embedding of emglken_file_exists in the current library_emglken.js
generation: the path is decoded and passed straight to Dialog.exists; this
generation has no storyfile special-case (the file never binds
storyfile_name). -/
def emglken_file_exists (env : EmglkenEnv) (path : String) : Bool :=
  env.host_exists path

/-- Embedding of emglken_file_read in the current library_emglken.js
generation: the path is passed straight to Dialog.read; when the provider
returns data it is written to the out buffer and the call returns true,
modelled as `some`, otherwise false, modelled as `none`. No storyfile
special-case. -/
def emglken_file_read (env : EmglkenEnv) (path : String) :
    Option (List Byte) :=
  env.host_read path

/-- A concrete environment whose host provider independently holds a record
under the storyfile's own name with bytes different from the pre-loaded
story image. -/
def clashingEnv : EmglkenEnv :=
  { storyfile_name := "story.ulx"
    storyfile_data := [7, 8]
    host_exists := fun n => if n = "story.ulx" then true else false
    host_read := fun n => if n = "story.ulx" then some [1, 2, 3] else none }

/-- C2 counterexample: the claim also cites emglken_file_exists in the
current library_emglken.js generation, which delegates to the Dialog host
provider with no storyfile special-case; with a host record independently
present under the storyfile name and holding different bytes, read returns
the host provider's bytes, not the immutable pre-loaded story image. -/
theorem file_read_current_returns_host_bytes :
    emglken_file_read clashingEnv clashingEnv.storyfile_name
      = some [1, 2, 3] ∧
    emglken_file_read clashingEnv clashingEnv.storyfile_name
      ≠ some clashingEnv.storyfile_data := by
  exact ⟨rfl, by decide⟩

/-- C2 (amended): in the part_000 fref generation, exists always returns
true for the well-known storyfile reference and read always returns the
immutable pre-loaded story bytes, for every state of the host provider,
including hosts whose record under the same name exists and holds different
bytes (the quantification over env covers every host_exists and host_read);
the current library_emglken.js generation instead delegates exists and read
to the Dialog host provider unconditionally, returning exactly the
provider's answer for every path, the storyfile name included. -/
theorem storyfile_pinned_or_delegated (env : EmglkenEnv) :
    emglken_fileref_exists env env.storyfile_name = true ∧
    emglken_fileref_read env env.storyfile_name = some env.storyfile_data ∧
    (∀ path, emglken_file_exists env path = env.host_exists path) ∧
    (∀ path, emglken_file_read env path = env.host_read path) := by
  refine ⟨?_, ?_, fun path => rfl, fun path => rfl⟩
  · simp [emglken_fileref_exists]
  · simp [emglken_fileref_read]

/-! ### Buffer codec: $writeBuffer (library_emglken.js)

The VM linear memory HEAP8 is modelled as a total function from addresses to
bytes; `_malloc` is an allocation oracle whose returned pointer is a
parameter of the embedding. -/

/-- Read `len` bytes of the heap starting at `ptr` (the VM-side read that
consumes a (pointer, length) descriptor). -/
def readRegion (heap : Nat → Byte) (ptr len : Nat) : List Byte :=
  (List.range len).map (fun i => heap (ptr + i))

/-- Overwrite the heap region starting at `ptr` with `data`, as HEAP8.set
does; addresses outside the region keep their previous bytes. -/
def writeHeapRegion (heap : Nat → Byte) (ptr : Nat) (data : List Byte) :
    Nat → Byte :=
  fun i => if ptr ≤ i ∧ i < ptr + data.length then data.getD (i - ptr) 0
    else heap i

/-- What $writeBuffer leaves behind: the updated heap, the size requested
from _malloc, and the two words written into the out descriptor. -/
structure WriteBufferResult where
  heap : Nat → Byte
  alloc_size : Nat
  desc_ptr : Nat
  desc_len : Nat

/-- Embedding of $writeBuffer: ptr = _malloc(data.length); HEAP8.set(data,
ptr); then the descriptor words (ptr, data.length) are stored into the
two-word out parameter. -/
def writeBuffer (heap : Nat → Byte) (mallocPtr : Nat) (data : List Byte) :
    WriteBufferResult :=
  { heap := writeHeapRegion heap mallocPtr data
    alloc_size := data.length
    desc_ptr := mallocPtr
    desc_len := data.length }

theorem readRegion_writeHeapRegion (heap : Nat → Byte) (ptr : Nat)
    (data : List Byte) :
    readRegion (writeHeapRegion heap ptr data) ptr data.length = data := by
  apply List.ext_getElem
  · simp [readRegion]
  · intro i h1 h2
    simp only [readRegion, List.getElem_map, List.getElem_range,
      writeHeapRegion]
    have hc : ptr ≤ ptr + i ∧ ptr + i < ptr + data.length := by
      constructor
      · exact Nat.le_add_right ptr i
      · omega
    rw [if_pos hc]
    have he : ptr + i - ptr = i := by omega
    rw [he, List.getD_eq_getElem]

/-- C8: $writeBuffer requests exactly data.length bytes from _malloc, writes
the descriptor (mallocPtr, data.length), and reading desc_len bytes from
desc_ptr on the VM side reproduces data exactly, for every data (lengths 0,
1 and any multi-block size are instances of the quantification). -/
theorem writeBuffer_roundtrip (heap : Nat → Byte) (mallocPtr : Nat)
    (data : List Byte) :
    (writeBuffer heap mallocPtr data).alloc_size = data.length ∧
    (writeBuffer heap mallocPtr data).desc_ptr = mallocPtr ∧
    (writeBuffer heap mallocPtr data).desc_len = data.length ∧
    readRegion (writeBuffer heap mallocPtr data).heap mallocPtr data.length
      = data :=
  ⟨rfl, rfl, rfl, readRegion_writeHeapRegion heap mallocPtr data⟩

/-! ### Event bridge: emglken_get_glkote_event

Events are the structured values the host stores into the single-slot
mailbox glkote_event_data; their JSON serialization (writeBufferJSON =
encoder.encode(JSON.stringify(data)) funnelled through $writeBuffer) is an
opaque `serialize` parameter. `delivered` is the event the host will store
before resolving glkote_event_ready when the call has to suspend. -/

/-- State visible after a get_glkote_event call: the heap and descriptor
written by $writeBuffer, and the mailbox contents on return. -/
structure GlkoteEventResult where
  heap : Nat → Byte
  desc_ptr : Nat
  desc_len : Nat
  glkote_event_data : Option String

/-- Embedding of emglken_get_glkote_event in library_emglken.js: when the
mailbox is empty the call suspends on a fresh promise until the host stores
`delivered` and resolves it; then writeBufferJSON serializes the mailbox
contents into the out descriptor and the mailbox is set to null. -/
def emglken_get_glkote_event (serialize : String → List Byte)
    (heap : Nat → Byte) (mallocPtr : Nat) (mailbox : Option String)
    (delivered : String) : GlkoteEventResult :=
  let e := mailbox.getD delivered
  let w := writeBuffer heap mallocPtr (serialize e)
  { heap := w.heap
    desc_ptr := w.desc_ptr
    desc_len := w.desc_len
    glkote_event_data := none }

/-- Embedding of the legacy emglken_get_glkote_event generation (the
storyfile-named Emglken library in src/unnamed/part_000): it always awaits a
fresh promise, ignoring any event already in the mailbox, then writes the
delivered event without setting glkote_event_data back to null. -/
def emglken_get_glkote_event_legacy (serialize : String → List Byte)
    (heap : Nat → Byte) (mallocPtr : Nat) (delivered : String) :
    GlkoteEventResult :=
  let w := writeBuffer heap mallocPtr (serialize delivered)
  { heap := w.heap
    desc_ptr := w.desc_ptr
    desc_len := w.desc_len
    glkote_event_data := some delivered }

/-- C3 counterexample: in the part_000 generation of
emglken_get_glkote_event the mailbox still holds the delivered event
immediately after the call returns, so the claim that every call clears the
single-slot mailbox is false for that cited implementation. -/
theorem get_glkote_event_legacy_mailbox_not_cleared :
    (emglken_get_glkote_event_legacy (fun _ => []) (fun _ => 0) 0
      "line").glkote_event_data ≠ none := by
  simp [emglken_get_glkote_event_legacy]

/-- C3 (amended): in the current library_emglken.js generation,
emglken_get_glkote_event waits only when the mailbox is empty, writes the
serialized pending event (the buffered one, or the one delivered while
suspended) into the out descriptor, and clears the mailbox, so immediately
after the call returns the mailbox holds no event; the legacy part_000
generation leaves the delivered event buffered. -/
theorem get_glkote_event_writes_and_clears (serialize : String → List Byte)
    (heap : Nat → Byte) (mallocPtr : Nat) (mailbox : Option String)
    (delivered : String) :
    (emglken_get_glkote_event serialize heap mallocPtr mailbox
        delivered).glkote_event_data = none ∧
    readRegion
        (emglken_get_glkote_event serialize heap mallocPtr mailbox
          delivered).heap
        (emglken_get_glkote_event serialize heap mallocPtr mailbox
          delivered).desc_ptr
        (emglken_get_glkote_event serialize heap mallocPtr mailbox
          delivered).desc_len
      = serialize (mailbox.getD delivered) := by
  refine ⟨rfl, ?_⟩
  exact readRegion_writeHeapRegion heap mallocPtr
    (serialize (mailbox.getD delivered))

/-! ### Batched storage bridge: emglken_file_write_buffer / emglken_file_flush

The batched generation of library_emglken.js keeps a JS object
`emglken_files` mapping path strings to HEAP8.subarray views of VM memory.
A JS object with string keys is an association list with unique keys; a
subarray is a view, so each entry stores the region descriptor
(buf_ptr, buf_len), resolved against the heap only when the bytes are read
(at flush time). -/

abbrev Path := String

/-- Lookup in an association list, first-match (JS property read). -/
def alookup {α : Type} (l : List (Path × α)) (p : Path) : Option α :=
  match l with
  | [] => none
  | e :: rest => if e.1 = p then some e.2 else alookup rest p

/-- Update or insert in an association list (JS property assignment
`emglken_files[path] = data`). -/
def aset {α : Type} (l : List (Path × α)) (p : Path) (v : α) :
    List (Path × α) :=
  match l with
  | [] => [(p, v)]
  | e :: rest => if e.1 = p then (p, v) :: rest else e :: aset rest p v

/-- The state the batched storage bridge touches: the Write Batch of view
descriptors, the host provider storage behind Dialog, the VM heap, and the
sequence of payloads passed to Dialog.write calls. -/
structure StorageState where
  emglken_files : List (Path × Nat × Nat)
  host : List (Path × List Byte)
  heap : Nat → Byte
  dialog_write_calls : List (List (Path × List Byte))

/-- Embedding of emglken_file_write_buffer (batched generation):
`emglken_files[path] = HEAP8.subarray(buf_ptr, buf_ptr + buf_len)` — the
batch entry for path becomes the view descriptor; nothing else changes and
no Dialog call is made. -/
def emglken_file_write_buffer (st : StorageState) (path : Path)
    (buf_ptr buf_len : Nat) : StorageState :=
  { st with emglken_files := aset st.emglken_files path (buf_ptr, buf_len) }

/-- Resolve every view descriptor of the batch against the heap: the bytes
Dialog.write actually receives when it reads the subarray views. -/
def resolveBatch (heap : Nat → Byte) (files : List (Path × Nat × Nat)) :
    List (Path × List Byte) :=
  files.map (fun e => (e.1, readRegion heap e.2.1 e.2.2))

/-- The host provider committing one batch: each entry of the payload
replaces the host record under its path. -/
def commitBatch (host : List (Path × List Byte))
    (batch : List (Path × List Byte)) : List (Path × List Byte) :=
  batch.foldl (fun h e => aset h e.1 e.2) host

/-- Outcome of a flush call: the awaited Dialog.write either resolves or
rejects; a rejection propagates out of the async body uncaught. -/
inductive FlushOutcome where
  | ok
  | failed
deriving DecidableEq, Repr

/-- Embedding of emglken_file_flush: `await Dialog.write(emglken_files)`
then `emglken_files = {}`. The Dialog.write call is recorded with its
resolved payload in both outcomes (the call is issued before it can fail);
when the await rejects, the clearing assignment never runs, so the batch and
the host storage are untouched. -/
def emglken_file_flush (st : StorageState) (dialogWriteSucceeds : Bool) :
    FlushOutcome × StorageState :=
  let payload := resolveBatch st.heap st.emglken_files
  if dialogWriteSucceeds then
    (.ok, { st with
      host := commitBatch st.host payload
      emglken_files := []
      dialog_write_calls := st.dialog_write_calls ++ [payload] })
  else
    (.failed, { st with
      dialog_write_calls := st.dialog_write_calls ++ [payload] })

theorem alookup_aset_self {α : Type} (l : List (Path × α)) (p : Path)
    (v : α) : alookup (aset l p v) p = some v := by
  induction l with
  | nil => simp [aset, alookup]
  | cons e rest ih =>
      by_cases h : e.1 = p
      · simp [aset, h, alookup]
      · simp [aset, h, alookup, ih]

theorem alookup_aset_ne {α : Type} (l : List (Path × α)) (p q : Path)
    (v : α) (h : q ≠ p) : alookup (aset l p v) q = alookup l q := by
  induction l with
  | nil => simp [aset, alookup, Ne.symm h]
  | cons e rest ih =>
      by_cases he : e.1 = p
      · subst he
        simp [aset, alookup, Ne.symm h]
      · simp [aset, he, alookup, ih]

theorem alookup_eq_none_of_not_mem {α : Type} (l : List (Path × α))
    (p : Path) (h : p ∉ l.map Prod.fst) : alookup l p = none := by
  induction l with
  | nil => rfl
  | cons e rest ih =>
      simp only [List.map_cons, List.mem_cons] at h
      push_neg at h
      simp [alookup, Ne.symm h.1, ih h.2]

theorem alookup_commitBatch_of_none (host : List (Path × List Byte))
    (batch : List (Path × List Byte)) (p : Path)
    (h0 : alookup batch p = none) :
    alookup (commitBatch host batch) p = alookup host p := by
  induction batch generalizing host with
  | nil => rfl
  | cons e rest ih =>
      simp only [alookup] at h0
      by_cases he : e.1 = p
      · simp [he] at h0
      · simp only [he, if_false] at h0
        have step : commitBatch host (e :: rest)
            = commitBatch (aset host e.1 e.2) rest := rfl
        rw [step, ih (aset host e.1 e.2) h0,
          alookup_aset_ne host e.1 p e.2 (Ne.symm he)]

theorem alookup_commitBatch_of_some (host : List (Path × List Byte))
    (batch : List (Path × List Byte))
    (hnd : (batch.map Prod.fst).Nodup) (p : Path) (v : List Byte)
    (hv : alookup batch p = some v) :
    alookup (commitBatch host batch) p = some v := by
  induction batch generalizing host with
  | nil => simp [alookup] at hv
  | cons e rest ih =>
      simp only [List.map_cons, List.nodup_cons] at hnd
      simp only [alookup] at hv
      have step : commitBatch host (e :: rest)
          = commitBatch (aset host e.1 e.2) rest := rfl
      by_cases he : e.1 = p
      · simp only [he, if_true] at hv
        have hrest : alookup rest p = none := by
          apply alookup_eq_none_of_not_mem
          rw [← he]
          exact hnd.1
        rw [step, alookup_commitBatch_of_none (aset host e.1 e.2) rest p
          hrest, he, alookup_aset_self]
        exact congrArg some (Option.some.inj hv)
      · simp only [he, if_false] at hv
        rw [step]
        exact ih (aset host e.1 e.2) hnd.2 hv

theorem alookup_resolveBatch (heap : Nat → Byte)
    (files : List (Path × Nat × Nat)) (p : Path) (v : Nat × Nat)
    (hv : alookup files p = some v) :
    alookup (resolveBatch heap files) p
      = some (readRegion heap v.1 v.2) := by
  induction files with
  | nil => simp [alookup] at hv
  | cons e rest ih =>
      simp only [alookup] at hv
      by_cases he : e.1 = p
      · simp only [he, if_true] at hv
        cases hv
        simp [resolveBatch, alookup, he]
      · simp only [he, if_false] at hv
        simp only [resolveBatch, List.map_cons, alookup, he, if_false]
        exact ih hv

theorem resolveBatch_keys (heap : Nat → Byte)
    (files : List (Path × Nat × Nat)) :
    (resolveBatch heap files).map Prod.fst = files.map Prod.fst := by
  induction files with
  | nil => rfl
  | cons e rest ih => simp [resolveBatch, ih]

/-- C6: in batched mode, emglken_file_write_buffer performs no Dialog call
(the recorded call sequence is unchanged) and changes no state other than
the Write Batch entry for its path: host storage, the heap and every batch
entry under a different path are untouched, while the entry for the written
path becomes the view descriptor of the given heap region. -/
theorem write_buffer_frame (st : StorageState) (path : Path)
    (buf_ptr buf_len : Nat) :
    (emglken_file_write_buffer st path buf_ptr buf_len).host = st.host ∧
    (emglken_file_write_buffer st path buf_ptr buf_len).heap = st.heap ∧
    (emglken_file_write_buffer st path buf_ptr buf_len).dialog_write_calls
      = st.dialog_write_calls ∧
    alookup (emglken_file_write_buffer st path buf_ptr
        buf_len).emglken_files path = some (buf_ptr, buf_len) ∧
    ∀ q, q ≠ path →
      alookup (emglken_file_write_buffer st path buf_ptr
          buf_len).emglken_files q = alookup st.emglken_files q := by
  refine ⟨rfl, rfl, rfl, ?_, ?_⟩
  · exact alookup_aset_self st.emglken_files path (buf_ptr, buf_len)
  · intro q hq
    exact alookup_aset_ne st.emglken_files path q (buf_ptr, buf_len) hq

/-- C6 witness: the frame theorem applied to a concrete state, checking the
untouched sibling entry and the host storage. -/
theorem write_buffer_frame_spot :
    (emglken_file_write_buffer
        { emglken_files := [("log", (30, 1))], host := [("old", [9])],
          heap := fun i => i, dialog_write_calls := [] }
        "save" 10 2).host = [("old", [9])] ∧
    alookup (emglken_file_write_buffer
        { emglken_files := [("log", (30, 1))], host := [("old", [9])],
          heap := fun i => i, dialog_write_calls := [] }
        "save" 10 2).emglken_files "log" = some (30, 1) :=
  ⟨(write_buffer_frame
      { emglken_files := [("log", (30, 1))], host := [("old", [9])],
        heap := fun i => i, dialog_write_calls := [] } "save" 10 2).1,
   by
    rw [(write_buffer_frame
      { emglken_files := [("log", (30, 1))], host := [("old", [9])],
        heap := fun i => i, dialog_write_calls := [] } "save" 10 2).2.2.2.2
      "log" (by decide)]
    rfl⟩

/-- C4: a successful flush reports ok, delivers the whole resolved batch to
the host provider as one Dialog.write call, commits every batch entry to
host storage, and clears the batch; a failed flush reports the failure to
the caller and leaves the batch and the host storage unchanged, so the
pending data is not discarded. -/
theorem flush_commits_or_preserves (st : StorageState)
    (hnd : (st.emglken_files.map Prod.fst).Nodup) :
    (emglken_file_flush st true).1 = .ok ∧
    (emglken_file_flush st true).2.emglken_files = [] ∧
    (emglken_file_flush st true).2.dialog_write_calls
      = st.dialog_write_calls ++ [resolveBatch st.heap st.emglken_files] ∧
    (∀ p v, alookup st.emglken_files p = some v →
      alookup (emglken_file_flush st true).2.host p
        = some (readRegion st.heap v.1 v.2)) ∧
    (emglken_file_flush st false).1 = .failed ∧
    (emglken_file_flush st false).2.emglken_files = st.emglken_files ∧
    (emglken_file_flush st false).2.host = st.host := by
  refine ⟨rfl, rfl, rfl, ?_, rfl, rfl, rfl⟩
  intro p v hv
  have hnd2 : ((resolveBatch st.heap st.emglken_files).map Prod.fst).Nodup :=
    by rw [resolveBatch_keys]; exact hnd
  exact alookup_commitBatch_of_some st.host
    (resolveBatch st.heap st.emglken_files) hnd2 p
    (readRegion st.heap v.1 v.2)
    (alookup_resolveBatch st.heap st.emglken_files p v hv)

/-- C4 witness: the flush theorem applied to a concrete two-entry batch,
checking the committed bytes of one entry and the failure branch. -/
theorem flush_commits_or_preserves_spot :
    alookup (emglken_file_flush
        { emglken_files := [("save", (10, 2)), ("log", (30, 1))],
          host := [("old", [9])], heap := fun i => i,
          dialog_write_calls := [] } true).2.host "save"
      = some [10, 11] ∧
    (emglken_file_flush
        { emglken_files := [("save", (10, 2)), ("log", (30, 1))],
          host := [("old", [9])], heap := fun i => i,
          dialog_write_calls := [] } false).2.emglken_files
      = [("save", (10, 2)), ("log", (30, 1))] := by
  have h := flush_commits_or_preserves
    { emglken_files := [("save", (10, 2)), ("log", (30, 1))],
      host := [("old", [9])], heap := fun i => i,
      dialog_write_calls := [] } (by decide)
  refine ⟨?_, h.2.2.2.2.2.1⟩
  rw [h.2.2.2.1 "save" (10, 2) rfl]
  rfl

/-- C7: after a successful flush has cleared the batch, a second flush with
no interceding writes reports ok, leaves the empty Write Batch and the host
storage exactly as they were, and the only trace it adds is a Dialog.write
call whose payload is empty, committing nothing. -/
theorem second_flush_noop (st : StorageState) :
    (emglken_file_flush (emglken_file_flush st true).2 true).1 = .ok ∧
    (emglken_file_flush (emglken_file_flush st true).2
        true).2.emglken_files
      = (emglken_file_flush st true).2.emglken_files ∧
    (emglken_file_flush (emglken_file_flush st true).2 true).2.host
      = (emglken_file_flush st true).2.host ∧
    (emglken_file_flush (emglken_file_flush st true).2
        true).2.dialog_write_calls
      = (emglken_file_flush st true).2.dialog_write_calls ++ [[]] := by
  refine ⟨rfl, rfl, rfl, rfl⟩

/-- C10: the batch entry stored by emglken_file_write_buffer is a view of
the VM heap region, not a copy: after a write of (buf_ptr, buf_len) and a
subsequent mutation of the heap, the payload flush delivers to Dialog.write
for that path, and the bytes committed to host storage, are the region's
contents under the heap as it stands at flush time. -/
theorem write_then_flush_delivers_flushtime_bytes
    (host : List (Path × List Byte)) (heap heap2 : Nat → Byte)
    (calls : List (List (Path × List Byte))) (path : Path)
    (buf_ptr buf_len : Nat) :
    (emglken_file_flush
        { emglken_file_write_buffer
            { emglken_files := [], host := host, heap := heap,
              dialog_write_calls := calls } path buf_ptr buf_len
          with heap := heap2 } true).2.dialog_write_calls
      = calls ++ [[(path, readRegion heap2 buf_ptr buf_len)]] ∧
    alookup (emglken_file_flush
        { emglken_file_write_buffer
            { emglken_files := [], host := host, heap := heap,
              dialog_write_calls := calls } path buf_ptr buf_len
          with heap := heap2 } true).2.host path
      = some (readRegion heap2 buf_ptr buf_len) := by
  constructor
  · rfl
  · exact alookup_aset_self host path (readRegion heap2 buf_ptr buf_len)

/-! ### Registry setters: gidispatch_set_object_registry /
gidispatch_set_retained_registry (support.c)

Host callbacks are opaque function pointers the layer only stores and
forwards; they are tracked by numeric identity. -/

/-- The globals of support.c (the stored host callbacks) together with the
Rust core's registry slots behind the _rs setters. -/
structure DispatchState where
  gli_register_obj : Option Nat
  gli_register_arr : Option Nat
  gli_unregister_arr : Option Nat
  rs_object_registry_set : Bool
  rs_retained_registry_set : Bool
deriving DecidableEq, Repr

/-- Modelled from the spec: gidispatch_set_object_registry_rs is implemented
in the Rust core, which is not under src/ (support.h only declares it
extern). Per the spec the registries "may only be set once per process
lifetime" and double-registration is a fatal contract violation that aborts
the process, modelled as `none`. -/
def gidispatch_set_object_registry_rs (st : DispatchState) :
    Option DispatchState :=
  if st.rs_object_registry_set then none
  else some { st with rs_object_registry_set := true }

/-- Modelled from the spec: the retained-registry counterpart of
gidispatch_set_object_registry_rs, also implemented in the Rust core and
one-shot, with double-registration fatal. -/
def gidispatch_set_retained_registry_rs (st : DispatchState) :
    Option DispatchState :=
  if st.rs_retained_registry_set then none
  else some { st with rs_retained_registry_set := true }

/-- Embedding of gidispatch_set_object_registry from support.c: it stores
the host register callback in the C global gli_register_obj (the WASM ABI
indirection shim gidispatch_call_object_register reads it back), then
forwards the shim and the unregister callback to the Rust-side setter. -/
def gidispatch_set_object_registry (st : DispatchState) (regi : Nat) :
    Option DispatchState :=
  gidispatch_set_object_registry_rs { st with gli_register_obj := some regi }

/-- Embedding of gidispatch_set_retained_registry from support.c: it stores
the host register and unregister callbacks in the C globals gli_register_arr
and gli_unregister_arr, then forwards the two indirection shims to the
Rust-side setter. -/
def gidispatch_set_retained_registry (st : DispatchState)
    (regi unregi : Nat) : Option DispatchState :=
  gidispatch_set_retained_registry_rs
    { st with gli_register_arr := some regi,
              gli_unregister_arr := some unregi }

/-- C5: each registry setter may succeed at most once per process lifetime:
whenever a first invocation of gidispatch_set_object_registry or
gidispatch_set_retained_registry succeeds, a second invocation of the same
setter is the fatal contract violation (`none`, the process abort) rather
than a silent replacement; and on a process-fresh state the first
invocation does succeed. -/
theorem set_registry_once (st : DispatchState) (r1 r2 u1 u2 : Nat) :
    (∀ st1, gidispatch_set_object_registry st r1 = some st1 →
        gidispatch_set_object_registry st1 r2 = none) ∧
    (∀ st2, gidispatch_set_retained_registry st r1 u1 = some st2 →
        gidispatch_set_retained_registry st2 r2 u2 = none) ∧
    (st.rs_object_registry_set = false →
        (gidispatch_set_object_registry st r1).isSome = true) ∧
    (st.rs_retained_registry_set = false →
        (gidispatch_set_retained_registry st r1 u1).isSome = true) := by
  refine ⟨?_, ?_, ?_, ?_⟩
  · intro st1 h1
    simp only [gidispatch_set_object_registry,
      gidispatch_set_object_registry_rs] at h1
    split at h1
    · simp at h1
    · rw [Option.some.injEq] at h1
      subst h1
      simp [gidispatch_set_object_registry,
        gidispatch_set_object_registry_rs]
  · intro st2 h2
    simp only [gidispatch_set_retained_registry,
      gidispatch_set_retained_registry_rs] at h2
    split at h2
    · simp at h2
    · rw [Option.some.injEq] at h2
      subst h2
      simp [gidispatch_set_retained_registry,
        gidispatch_set_retained_registry_rs]
  · intro hfresh
    simp [gidispatch_set_object_registry,
      gidispatch_set_object_registry_rs, hfresh]
  · intro hfresh
    simp [gidispatch_set_retained_registry,
      gidispatch_set_retained_registry_rs, hfresh]

/-- The dispatch state at process start: no callbacks stored, no registry
installed. -/
def dispatchInit : DispatchState :=
  { gli_register_obj := none
    gli_register_arr := none
    gli_unregister_arr := none
    rs_object_registry_set := false
    rs_retained_registry_set := false }

/-- C5 witness: from the process-fresh state, the first object-registry
registration succeeds and the second aborts. -/
theorem set_registry_once_spot :
    gidispatch_set_object_registry
      (DispatchState.mk (some 5) none none true false) 6 = none ∧
    (gidispatch_set_object_registry dispatchInit 5).isSome = true :=
  ⟨(set_registry_once dispatchInit 5 6 0 0).1
      (DispatchState.mk (some 5) none none true false) rfl,
   (set_registry_once dispatchInit 5 6 0 0).2.2.1 rfl⟩

/-! ### Unicode buffer transformer

The transformer (glk_buffer_to_upper_case_uni and its siblings) is
implemented in the Rust core, which is not under src/; the definitions below
are modelled from the spec of §4.5. -/

/-- Modelled from the spec: the per-code-point full uppercase mapping used
by the Unicode Buffer Transformer, whose special-case table sends the
ligature ﬀ (U+FB00) to "FF" and sharp-s ß (U+00DF) to "SS"; other code
points map to their simple uppercase (ASCII shown here, enough for the
claim's inputs), and case mapping may change the code-point count. -/
def glk_uppercase_cp (cp : Nat) : List Nat :=
  if cp = 0xFB00 then [0x46, 0x46]
  else if cp = 0xDF then [0x53, 0x53]
  else if 0x61 ≤ cp ∧ cp ≤ 0x7A then [cp - 0x20]
  else [cp]

/-- Modelled from the spec: transform(buffer_ptr, capacity, logical_length,
operation) reads logical_length code points from the buffer, applies the
per-code-point operation, writes at most capacity resulting code points back
in place (the rest of the buffer keeps its previous contents), and returns
the true number of resulting code points whether or not it exceeds
capacity. -/
def glk_buffer_transform (op : Nat → List Nat) (buf : List Nat)
    (capacity logical_length : Nat) : Nat × List Nat :=
  let result := (buf.take logical_length).flatMap op
  let w := min result.length capacity
  (result.length, result.take w ++ buf.drop w)

/-- C9: the transform returns the true resulting code-point count
independently of capacity, preserves the buffer's size, leaves every slot
from position min(required, capacity) on unchanged (so it writes back at
most capacity code points); in particular uppercasing the single code point
ﬀ in a 3-slot buffer returns required length 2 and writes 2 code points
under capacity 3, and still returns 2 while writing only 1 code point under
capacity 1. -/
theorem buffer_transform_truncation (op : Nat → List Nat) (buf : List Nat)
    (c c2 llen : Nat) (hcap : c ≤ buf.length) :
    (glk_buffer_transform op buf c llen).1
      = (glk_buffer_transform op buf c2 llen).1 ∧
    (glk_buffer_transform op buf c llen).1
      = ((buf.take llen).flatMap op).length ∧
    (glk_buffer_transform op buf c llen).2.length = buf.length ∧
    (∀ i, min (glk_buffer_transform op buf c llen).1 c ≤ i →
        (glk_buffer_transform op buf c llen).2.getD i 0 = buf.getD i 0) ∧
    glk_buffer_transform glk_uppercase_cp [0xFB00, 0, 0] 3 1
      = (2, [0x46, 0x46, 0]) ∧
    glk_buffer_transform glk_uppercase_cp [0xFB00, 0, 0] 1 1
      = (2, [0x46, 0, 0]) := by
  have hw : min ((buf.take llen).flatMap op).length c ≤ buf.length :=
    le_trans (Nat.min_le_right _ _) hcap
  have hwr : min ((buf.take llen).flatMap op).length c
      ≤ ((buf.take llen).flatMap op).length := Nat.min_le_left _ _
  refine ⟨rfl, rfl, ?_, ?_, by decide, by decide⟩
  · simp only [glk_buffer_transform, List.length_append, List.length_take,
      List.length_drop]
    omega
  · intro i hi
    simp only [glk_buffer_transform] at hi ⊢
    have hlen : (((buf.take llen).flatMap op).take
        (min ((buf.take llen).flatMap op).length c)).length
        = min ((buf.take llen).flatMap op).length c := by
      simp only [List.length_take]
      omega
    rw [List.getD_eq_getElem?_getD, List.getD_eq_getElem?_getD]
    rw [List.getElem?_append_right (by rw [hlen]; exact hi)]
    rw [hlen, List.getElem?_drop]
    have harith : min ((buf.take llen).flatMap op).length c
        + (i - min ((buf.take llen).flatMap op).length c) = i := by omega
    rw [harith]

/-- C9 witness: the truncation theorem applied at capacity 1 on the 3-slot
buffer holding ﬀ, discharging the capacity bound concretely. -/
theorem buffer_transform_truncation_spot :
    (glk_buffer_transform glk_uppercase_cp [0xFB00, 0, 0] 1 1).2.length
      = 3 :=
  (buffer_transform_truncation glk_uppercase_cp [0xFB00, 0, 0] 1 2 1
    (by decide)).2.2.1

end RemGlk
